import Mathlib

/-!
Verification of the EMFI Station (`emfi_station` Python package) against its
natural-language specification.

Shallow embedding conventions:
* Real-valued coordinates, feed rates and temperatures are modelled as exact
  rationals (`ℚ`); the Python code uses floats, but every property checked
  here is about control flow, comparisons and decimal rounding, for which the
  idealised decimal semantics over `ℚ` is faithful.
* G-code commands written to the serial link are modelled as an abstract
  syntax tree (`MCmd`) rather than formatted strings; each Marlin operation
  is a pure function from its inputs to the list of commands it writes.
* Python `while` loops are embedded as fuel-indexed recursions; the fuel is
  always instantiated (or quantified) large enough to cover every run the
  Python loop actually completes.
* Python exceptions are modelled with `Except`/`Option`; an exception kind
  that the source catches is distinguished from one it lets propagate.
-/

namespace EMFI

/-- G-code commands issued by `Marlin` (src/emfi_station/marlin.py), as an
AST: `g0` is a linear move (`None` axes omitted), `g28` homes the flagged
axes, `g90`/`g91` set absolute/relative addressing, `m400` is the
finish-all-moves barrier, `m114` the position query, `m106` sets fan speed,
`m410`/`m112` are emergency stop and kill.  `clearBuf` models
`MarlinSerial.clear()`. -/
inductive MCmd where
  | g0 (feed : ℚ) (x y z : Option ℚ)
  | g28 (x y z : Bool)
  | g90
  | g91
  | m400
  | m114
  | m106 (slot speed : ℤ)
  | m410
  | m112
  | clearBuf
  deriving DecidableEq, Repr

/-- Mutable state of the `Marlin` controller object that the verified
operations read or write: the configured safe height (`self.safe_height`,
initialised to 100). -/
structure MarlinState where
  safe_height : ℚ
  deriving DecidableEq, Repr

/-- Model of `Marlin.set_safe_height`: store the new Z limit. -/
def set_safe_height (m : MarlinState) (z : ℚ) : MarlinState :=
  { m with safe_height := z }

/-- Model of `Marlin.is_safe_height`: `if z > self.safe_height: return False else:
return True`. -/
def is_safe_height (m : MarlinState) (z : ℚ) : Bool :=
  if z > m.safe_height then false else true

/-- Commands issued by `Marlin.__wait_move_completed`: clear the buffer and
send the `M400` barrier (the wait itself writes nothing). -/
def wait_move_completed : List MCmd :=
  [.clearBuf, .m400]

/-- Model of `Marlin.move(x, y, z, feed_rate)` as the list of serial commands it
writes.  If a Z target is given and is not a safe height, the function logs
and returns without writing anything; otherwise it writes the `G0` move,
waits for acknowledgement, then issues the `M400` barrier and waits again. -/
def move (m : MarlinState) (x y z : Option ℚ) (feed_rate : ℚ) : List MCmd :=
  match z with
  | some zv =>
      if is_safe_height m zv then
        .g0 (feed_rate * 60) x y z :: wait_move_completed
      else
        []
  | none => .g0 (feed_rate * 60) x y z :: wait_move_completed

/-- Model of `Marlin.relative_mode(enable)`: `G91` to enable relative addressing,
`G90` to restore absolute addressing. -/
def relative_mode (enable : Bool) : List MCmd :=
  if enable then [.g91] else [.g90]

/-- Model of `Marlin.relative_move(x, y, z, feed_rate)`, given the current absolute
position `pos` that its `get_position()` call reports.  Returns the pair
(did the `'... not safe. Aborting.'` critical log fire, list of serial
commands written).  The source checks `is_safe_height(pos[2] + z)` and logs
when the check fails, but does not return: it proceeds to switch to
relative mode, call `move`, and restore absolute mode regardless.  The
leading `m114` is the position query issued by `get_position`. -/
def relative_move (m : MarlinState) (pos : ℚ × ℚ × ℚ) (x y : Option ℚ)
    (z : ℚ) (feed_rate : ℚ) : Bool × List MCmd :=
  (!is_safe_height m (pos.2.2 + z),
   .m114 ::
   (relative_mode true ++ move m x y (some z) feed_rate ++ relative_mode false))

/-- Messages read back from the serial link during a protocol wait:
`busy` is the `echo:busy: processing` keepalive, `ok` the terminal
acknowledgement, `other` any other line, `empty` a read timeout. -/
inductive SerialMsg where
  | busy
  | ok
  | other
  | empty
  deriving DecidableEq, Repr

/-- Outcome of `Marlin.__wait_cmd_completed`: `completed polls` means the
`ok` message ended the wait after `polls` completed 0.25s sleep/poll cycles;
`timeout polls` means the `IOError` timeout was raised after `polls` cycles;
`pending` means the loop was still running when the modelling fuel ran out
(the Python loop would simply keep iterating). -/
inductive WaitOutcome where
  | completed (polls : ℕ)
  | timeout (polls : ℕ)
  | pending
  deriving DecidableEq, Repr

/-- The body of `Marlin.__wait_cmd_completed`'s `while True` loop, fuel
indexed.  `reads i` is the line obtained by the `self.ser.read()` call of
iteration `i`; `counter` is the retry counter.  Each iteration: read; a
`busy` read resets the counter to 0; an `ok` read breaks out successfully;
otherwise sleep 0.25s, increment the counter, and raise the timeout
`IOError` once `counter > max_tries`. -/
def waitLoop (reads : ℕ → SerialMsg) (max_tries : ℕ) :
    ℕ → ℕ → ℕ → WaitOutcome
  | _, _, 0 => .pending
  | i, counter, fuel + 1 =>
      let res := reads i
      let counter' := if res = .busy then 0 else counter
      if res = .ok then
        .completed i
      else if counter' + 1 > max_tries then
        .timeout (i + 1)
      else
        waitLoop reads max_tries (i + 1) (counter' + 1) fuel

/-- Model of `Marlin.__wait_cmd_completed(max_tries)`, run with the given fuel from
a fresh counter. -/
def wait_cmd_completed (reads : ℕ → SerialMsg) (max_tries fuel : ℕ) :
    WaitOutcome :=
  waitLoop reads max_tries 0 0 fuel

/-- Number of decimal digits Python's `str` shows for a number, idealised
over `ℚ`: the least `n ≤ 40` such that `q * 10 ^ n` is an integer (0 for
integers, matching `str(int)` which has no decimal point and makes
`get_decimals_len` skip the value via `IndexError`). -/
def decimalsOf (q : ℚ) : ℕ :=
  ((List.range 41).find? fun n => (q * 10 ^ n).den = 1).getD 40

/-- Model of `get_decimals_len(numbers)` (src/emfi_station/utils.py): maximum number
of decimals over the list, 0 for values without a decimal point. -/
def get_decimals_len (numbers : List ℚ) : ℕ :=
  numbers.foldl (fun fp x => max fp (decimalsOf x)) 0

/-- Python 3 `round` to an integer: round half to even (banker's
rounding). -/
def roundHalfEven (q : ℚ) : ℤ :=
  let f := Int.fdiv q.num q.den
  let r := q - f
  if r < 1 / 2 then f
  else if 1 / 2 < r then f + 1
  else if f % 2 = 0 then f else f + 1

/-- Python `round(x, fp)`: round half to even at `fp` decimal places,
idealised over `ℚ`. -/
def roundQ (q : ℚ) (fp : ℕ) : ℚ :=
  (roundHalfEven (q * 10 ^ fp) : ℚ) / 10 ^ fp

/-- The ascending `while start < stop` loop of `range_rounded`, fuel
indexed: append `round(start, fp)` and advance by `step` while
`start < stop`. -/
def rangeUpAux (stop step : ℚ) (fp : ℕ) : ℕ → ℚ → List ℚ
  | 0, _ => []
  | fuel + 1, start =>
      if start < stop then roundQ start fp :: rangeUpAux stop step fp fuel (start + step)
      else []

/-- The descending `while start > stop` loop of `range_rounded`, fuel
indexed: append `round(start, fp)` and retreat by `step` while
`start > stop`. -/
def rangeDownAux (stop step : ℚ) (fp : ℕ) : ℕ → ℚ → List ℚ
  | 0, _ => []
  | fuel + 1, start =>
      if start > stop then roundQ start fp :: rangeDownAux stop step fp fuel (start - step)
      else []

/-- Fuel sufficient for either `range_rounded` loop when `step` has the
right sign (the Python loop runs about `|stop - start| / step` times; with a
zero or wrongly-signed step the Python loop never terminates, and the model
returns the truncated list instead). -/
def rangeFuel (start stop step : ℚ) : ℕ :=
  if step = 0 then 0 else ((stop - start) / step).num.natAbs + 2

/-- Model of `range_rounded(start, stop, step)`: arithmetic progression from `start`
towards `stop`, each value rounded to the maximum decimal length of the
inputs, with `round(stop, fp)` always appended at the end. -/
def range_rounded (start stop step : ℚ) : List ℚ :=
  let fp := get_decimals_len [start, stop, step]
  (if start < stop then rangeUpAux stop step fp (rangeFuel start stop step) start
   else rangeDownAux stop step fp (rangeFuel start stop step) start)
  ++ [roundQ stop fp]

/-- The inner `for x in x_pos: for y in y_pos: ... y_pos.reverse()` loops of
`compute_positions` for one Z layer: emits `(x, y, z)` for every `y` of the
current `y_pos`, reversing `y_pos` after each `x`; returns the emitted
positions and the final state of the mutated `y_pos` list. -/
def serpentineX (z : ℚ) : List ℚ → List ℚ → List (ℚ × ℚ × ℚ) × List ℚ
  | [], ys => ([], ys)
  | x :: xs, ys =>
      let here := ys.map fun y => (x, y, z)
      let rest := serpentineX z xs ys.reverse
      (here ++ rest.1, rest.2)

/-- The outer `for z in z_pos` loop of `compute_positions`: runs
`serpentineX` for each layer, threading the mutated `y_pos`, and reverses
`x_pos` after each layer. -/
def serpentineZ : List ℚ → List ℚ → List ℚ → List (ℚ × ℚ × ℚ)
  | [], _, _ => []
  | z :: zs, xs, ys =>
      let layer := serpentineX z xs ys
      layer.1 ++ serpentineZ zs xs.reverse layer.2

/-- The validation loop at the end of `compute_positions`: each coordinate's
decimal length must be at most `fp` (values without a decimal point are
skipped via `IndexError`, which the idealised `decimalsOf = 0` also
satisfies). -/
def positionsValid (fp : ℕ) (positions : List (ℚ × ℚ × ℚ)) : Bool :=
  positions.all fun p =>
    decide (decimalsOf p.1 ≤ fp) && decide (decimalsOf p.2.1 ≤ fp) &&
      decide (decimalsOf p.2.2 ≤ fp)

/-- Model of `compute_positions(start, stop, step)` (src/emfi_station/utils.py):
serpentine-ordered grid of rounded positions between the two corners.
`none` models the `AssertionError` from the validation loop; `fp` is the
maximum decimal length over the coordinates of `start`, `stop` and `step`
(the source passes the two corner lists and `step` to `get_decimals_len`,
whose `str`-based scan reduces to this on the numeric contents). -/
def compute_positions (start stop : ℚ × ℚ × ℚ) (step : ℚ) :
    Option (List (ℚ × ℚ × ℚ)) :=
  let fp := get_decimals_len [start.1, start.2.1, start.2.2,
                              stop.1, stop.2.1, stop.2.2, step]
  let x_pos := range_rounded start.1 stop.1 step
  let y_pos := range_rounded start.2.1 stop.2.1 step
  let z_pos := range_rounded start.2.2 stop.2.2 step
  let positions := serpentineZ z_pos x_pos y_pos
  if positionsValid fp positions then some positions else none

/-- Python exception kinds relevant to `Marlin.get_position`: the source
catches `IndexError` but lets `ValueError` (from `float(...)`) escape. -/
inductive PyError where
  | indexError
  | valueError
  deriving DecidableEq, Repr

/-- Python `s.split(sep)` on a single-character separator, over the
character list of the string: always returns at least one (possibly empty)
field, one more field per separator occurrence. -/
def splitOnChar (sep : Char) : List Char → List (List Char)
  | [] => [[]]
  | c :: rest =>
      match splitOnChar sep rest with
      | [] => [[]]
      | fld :: flds => if c = sep then [] :: fld :: flds else (c :: fld) :: flds

/-- Python `s.split(' ', 1)[0]`: the prefix of the string up to the first
space. -/
def firstToken (s : List Char) : List Char :=
  s.takeWhile (· ≠ ' ')

/-- Decimal digit value of a character list, most significant first. -/
def digitsVal (s : List Char) : ℕ :=
  s.foldl (fun a c => a * 10 + (c.toNat - 48)) 0

/-- The non-negative part of Python `float(s)` on plain decimal literals:
digits with an optional single decimal point, at least one digit in total
(`'1.'` and `'.5'` parse, `'.'` and `''` do not).  `none` models the
`ValueError` Python raises for anything else; the exotic float syntax
(exponents, `inf`, `nan`, surrounding whitespace) never occurs in Marlin
position replies and is modelled as unparseable. -/
def parseUnsigned (s : List Char) : Option ℚ :=
  let int := s.takeWhile (·.isDigit)
  let rest := s.dropWhile (·.isDigit)
  match rest with
  | [] => if int.isEmpty then none else some (digitsVal int)
  | '.' :: frac =>
      if frac.all (·.isDigit) && !(int.isEmpty && frac.isEmpty) then
        some ((digitsVal int : ℚ) + (digitsVal frac : ℚ) / 10 ^ frac.length)
      else none
  | _ => none

/-- Python `float(s)` on plain decimal literals with an optional sign. -/
def parseFloat (s : List Char) : Option ℚ :=
  match s with
  | '-' :: rest => (parseUnsigned rest).map (fun q => -q)
  | '+' :: rest => parseUnsigned rest
  | l => parseUnsigned l

/-- Python list indexing `l[i]`: `IndexError` when out of range. -/
def pyIndex (l : List (List Char)) (i : ℕ) : Except PyError (List Char) :=
  match l.get? i with
  | some v => .ok v
  | none => .error .indexError

/-- Python `float(s)`: `ValueError` when the string is not a number. -/
def pyFloat (s : List Char) : Except PyError ℚ :=
  match parseFloat s with
  | some q => .ok q
  | none => .error .valueError

/-- The `try` body of `Marlin.get_position`: split the reply on `':'`, take
fields 1, 2 and 3, cut each at the first space, and parse each as a float —
in that sequential order, so the first failing step determines the raised
exception. -/
def parsePosition (reply : String) : Except PyError (ℚ × ℚ × ℚ) := do
  let s := splitOnChar ':' reply.data
  let xf ← pyIndex s 1
  let x ← pyFloat (firstToken xf)
  let yf ← pyIndex s 2
  let y ← pyFloat (firstToken yf)
  let zf ← pyIndex s 3
  let z ← pyFloat (firstToken zf)
  pure (x, y, z)

/-- Model of `Marlin.get_position` applied to the reply text read after the `M114`
query: the `except IndexError` handler logs and returns the origin, while
any `ValueError` from `float(...)` propagates to the caller. -/
def get_position (reply : String) : Except PyError (ℚ × ℚ × ℚ) :=
  match parsePosition reply with
  | .ok p => .ok p
  | .error .indexError => .ok (0, 0, 0)
  | .error .valueError => .error .valueError

/-- The three operating modes of `State`
(src/emfi_station/websocket_state.py). -/
inductive Mode where
  | manual
  | joystick
  | attack
  deriving DecidableEq, Repr

/-- The joystick object held by `WebSocketHelper` (`None` until first
enabled); only its cooperative `running` flag matters here. -/
structure JoystickObj where
  running : Bool
  deriving DecidableEq, Repr

/-- The `WebSocketHelper` state the orchestration claims depend on: the
`State` snapshot's mode and `safe_z`, the optional joystick object, and the
`Marlin` controller state. -/
structure Helper where
  mode : Mode
  safe_z : ℚ
  joystick : Option JoystickObj
  marlin : MarlinState
  deriving DecidableEq, Repr

/-- Model of `State.joystick_enabled`: `if self.mode == self.JOYSTICK_MODE: return
True else: return False`. -/
def joystick_enabled (h : Helper) : Bool :=
  if h.mode = .joystick then true else false

/-- Model of `State.attack_enabled`: `if self.mode == self.ATTACK_MODE: return True
else: return False`. -/
def attack_enabled (h : Helper) : Bool :=
  if h.mode = .attack then true else false

/-- A background task dispatched by `WebSocketHelper`
(`threading.Thread(target=..., args=...)` followed by `start()`). -/
inductive Task where
  | relativeMoveTask (x y z feed_rate : ℚ)
  | moveTask (x y z feed_rate : ℚ)
  | homeTask (x y z : Bool)
  deriving DecidableEq, Repr

/-- Model of `WebSocketHelper.step`: guarded by `if not (self.state.attack_enabled()
and self.state.joystick_enabled())` — note the `and` — then dispatches
`marlin.relative_move` as a background task and returns `True`; returns
`False` and dispatches nothing otherwise.  Result: (return value,
dispatched task if any). -/
def step (h : Helper) (speed x y z : ℚ) : Bool × Option Task :=
  if !(attack_enabled h && joystick_enabled h) then
    (true, some (.relativeMoveTask x y z speed))
  else
    (false, none)

/-- Model of `WebSocketHelper.home`: same `and` guard as `step`, dispatching
`marlin.home`. -/
def home (h : Helper) (x y z : Bool) : Bool × Option Task :=
  if !(attack_enabled h && joystick_enabled h) then
    (true, some (.homeTask x y z))
  else
    (false, none)

/-- Model of `WebSocketHelper.move`: same `and` guard as `step`, dispatching
`marlin.move`. -/
def move_helper (h : Helper) (speed x y z : ℚ) : Bool × Option Task :=
  if !(attack_enabled h && joystick_enabled h) then
    (true, some (.moveTask x y z speed))
  else
    (false, none)

/-- Model of `WebSocketHelper.disable_joystick`: if a joystick object exists, clear
its `running` flag and join the background task; in every case set the mode
to Manual and return `True`.  Result: (return value, new state, whether
`task.join()` was performed). -/
def disable_joystick (h : Helper) : Bool × Helper × Bool :=
  match h.joystick with
  | some j =>
      (true,
       { h with joystick := some { j with running := false }, mode := .manual },
       true)
  | none => (true, { h with mode := .manual }, false)

/-- Model of `WebSocketHelper.set_safe_z`: unconditionally update the Marlin safe
height and the snapshot's `safe_z`, returning `True`. -/
def set_safe_z (h : Helper) (z : ℚ) : Bool × Helper :=
  (true, { h with marlin := set_safe_height h.marlin z, safe_z := z })

/-- The `cmd` values of the control-channel message schema handled by
`WebSocketServer.__message_handler`. -/
inductive WireCmd where
  | enableJoystick
  | disableJoystick
  | stepCmd
  | homeCmd
  | moveCmd
  | startAttack
  | stopAttack
  | safeZ
  deriving DecidableEq, Repr

/-- The busy check at the top of `WebSocketServer.__message_handler`:
`if self.helper.is_running() and cmd != 'disableJoystick' and cmd !=
'stopAttack'` — every command other than those two is refused with a
user-visible error while a background task is alive. -/
def busy_check_refuses (running : Bool) (cmd : WireCmd) : Bool :=
  running && !(cmd = WireCmd.disableJoystick) && !(cmd = WireCmd.stopAttack)

/-- Outcome of `__message_handler` for one command: the busy-check error
reply, or the command handled with the helper's success flag. -/
inductive HandlerOutcome where
  | busyError
  | handled (success : Bool)
  deriving DecidableEq, Repr

/-- Model of `WebSocketServer.__message_handler` on a `safeZ` command, given whether
`helper.is_running()` holds: the busy check runs first and refuses without
touching any state; otherwise `helper.set_safe_z` runs. -/
def handle_safe_z (running : Bool) (h : Helper) (z : ℚ) :
    HandlerOutcome × Helper :=
  if busy_check_refuses running .safeZ then
    (.busyError, h)
  else
    let r := set_safe_z h z
    (.handled r.1, r.2)

/-- The behaviour of a loaded attack implementation during
`AttackWorker.run`, as oracles indexed by (position index, repetition
index): the results of `was_successful`, `critical_check` and the
temperature comparison of `__check_temp`, and the value of the cooperative
`self.running` flag as read at the top of each repetition. -/
structure AttackBehavior where
  repetitions : ℕ
  was_successful : ℕ → ℕ → Bool
  critical_check : ℕ → ℕ → Bool
  temp_ok : ℕ → ℕ → Bool
  running : ℕ → ℕ → Bool

/-- How the repetition loop `for j in range(self.attack.repetitions)` of
`AttackWorker.run` ended for one position. -/
inductive RepExit where
  | completedAll
  | stopped (j : ℕ)
  | critical (j : ℕ)
  deriving DecidableEq, Repr

/-- How `AttackWorker.run` ended: all positions processed (then `shutdown`
and the log close run), the cooperative stop flag observed at `(i, j)`, or
`critical_check` returning `False` at `(i, j)` (both `return` directly out
of `run`). -/
inductive RunExit where
  | finished
  | stoppedAt (i j : ℕ)
  | criticalAbortAt (i j : ℕ)
  deriving DecidableEq, Repr

/-- Result of a modelled `AttackWorker.run`: the exit kind, whether
`self.attack.shutdown()` was called, whether `self.a_log.close()` was
called, the `(position, repetition)` pairs whose `shout` executed, in
order, and the pairs after which the 20s cooldown sleep ran. -/
structure RunResult where
  exit : RunExit
  shutdownCalled : Bool
  logClosed : Bool
  processed : List (ℕ × ℕ)
  cooldowns : List (ℕ × ℕ)
  deriving DecidableEq, Repr

/-- The repetition loop of `AttackWorker.run` at position index `i`,
starting from repetition `j` with `rem` repetitions left: check the
`running` flag (early `return`), run `reset_target`/`shout`, log the
`was_successful` outcome, `return` if `critical_check` fails, and sleep the
cooldown if `__check_temp` fails.  Returns the processed pairs, the
cooldown pairs, and how the loop ended. -/
def repLoop (b : AttackBehavior) (i : ℕ) :
    ℕ → ℕ → List (ℕ × ℕ) × List (ℕ × ℕ) × RepExit
  | _, 0 => ([], [], .completedAll)
  | j, rem + 1 =>
      if !(b.running i j) then
        ([], [], .stopped j)
      else if !(b.critical_check i j) then
        ([(i, j)], [], .critical j)
      else
        let cool := if !(b.temp_ok i j) then [(i, j)] else []
        let rest := repLoop b i (j + 1) rem
        ((i, j) :: rest.1, cool ++ rest.2.1, rest.2.2)

/-- The position loop `for i, pos in enumerate(positions)` of
`AttackWorker.run`, abstracted over the remaining number of planned
positions starting at index `i`: an early exit of the repetition loop
returns straight out of `run` (no `shutdown`, no log close); after the last
position, `shutdown` and the log close run. -/
def posLoop (b : AttackBehavior) : ℕ → ℕ → RunResult
  | _, 0 =>
      { exit := .finished, shutdownCalled := true, logClosed := true,
        processed := [], cooldowns := [] }
  | i, rem + 1 =>
      let reps := repLoop b i 0 b.repetitions
      match reps.2.2 with
      | .completedAll =>
          let rest := posLoop b (i + 1) rem
          { rest with
            processed := reps.1 ++ rest.processed,
            cooldowns := reps.2.1 ++ rest.cooldowns }
      | .stopped j =>
          { exit := .stoppedAt i j, shutdownCalled := false,
            logClosed := false, processed := reps.1, cooldowns := reps.2.1 }
      | .critical j =>
          { exit := .criticalAbortAt i j, shutdownCalled := false,
            logClosed := false, processed := reps.1, cooldowns := reps.2.1 }

/-- Model of `AttackWorker.run` over a sweep plan of `numPositions` planned
positions (only the number of positions affects the control flow modelled
here; the stage move to each position is issued before its repetition
loop). -/
def runWorker (b : AttackBehavior) (numPositions : ℕ) : RunResult :=
  posLoop b 0 numPositions

/-- A constructed attack instance, as far as `AttackWorker` observes it. -/
def AttackObj : Type := AttackBehavior

/-- A loaded attack class in `AttackImporter.attack_cls`: its stable
`name()` and the result of calling the constructor (`none` models the
`TypeError` raised when required constructor arguments are missing; calling
the `None` returned by a failed registry lookup raises `TypeError` as
well). -/
structure AttackClass where
  name : String
  construct : Option AttackObj

/-- Model of `AttackImporter.get_attack_by_name`: first loaded class whose `name()`
matches, `None` if there is none. -/
def get_attack_by_name (attack_cls : List AttackClass) (name : String) :
    Option AttackClass :=
  attack_cls.find? fun a => a.name = name

/-- The `AttackWorker` fields touched by `load_attack`: the currently
loaded attack object and the log name set via `a_log.set_name`. -/
structure WorkerState where
  attack : Option AttackObj
  log_name : String

/-- Model of `AttackWorker.load_attack`: look the class up by name, set the log
name, then try `self.attack = cls()` — when the lookup returned `None` or
construction fails, the `TypeError` is caught, `False` is returned, and
`self.attack` keeps its previous value (the assignment never executes). -/
def load_attack (attack_cls : List AttackClass) (w : WorkerState)
    (name : String) : Bool × WorkerState :=
  let cls := get_attack_by_name attack_cls name
  let w' := { w with log_name := name }
  match cls with
  | none => (false, w')
  | some c =>
      match c.construct with
      | none => (false, w')
      | some obj => (true, { w' with attack := some obj })

/-- Sample attack behaviour used in concrete checks: two repetitions, never
successful, `critical_check` always false, temperature fine, never
stopped. -/
def sampleCriticalAttack : AttackBehavior :=
  ⟨2, fun _ _ => false, fun _ _ => false, fun _ _ => true, fun _ _ => true⟩

/-! ### Helper lemmas -/

/-- The admission guard shared by `step`, `home` and `move`:
`attack_enabled() and joystick_enabled()` can never hold, because the mode
is a single value, so the guard admits in every mode. -/
theorem attack_and_joystick_never_both (h : Helper) :
    (attack_enabled h && joystick_enabled h) = false := by
  rcases hm : h.mode <;> simp [attack_enabled, joystick_enabled, hm]

/-- On a silent stream (never `busy`, never `ok`), the wait loop started
with `counter + d = max_tries` raises the timeout after `d + 1` further
polls. -/
theorem waitLoop_silent (reads : ℕ → SerialMsg) (max_tries : ℕ)
    (hs : ∀ i, reads i ≠ .busy ∧ reads i ≠ .ok) :
    ∀ d i counter, counter + d = max_tries →
      ∀ fuel, d + 1 ≤ fuel →
        waitLoop reads max_tries i counter fuel = .timeout (i + d + 1) := by
  intro d
  induction d with
  | zero =>
      intro i counter hc fuel hf
      obtain ⟨f, rfl⟩ : ∃ f, fuel = f + 1 := ⟨fuel - 1, by omega⟩
      have h1 := hs i
      have hgt : counter + 1 > max_tries := by omega
      simp [waitLoop, h1.1, h1.2, hgt]
  | succ d ih =>
      intro i counter hc fuel hf
      obtain ⟨f, rfl⟩ : ∃ f, fuel = f + 1 := ⟨fuel - 1, by omega⟩
      have h1 := hs i
      have hng : ¬ counter + 1 > max_tries := by omega
      simp only [waitLoop, h1.1, h1.2, if_false, hng, if_neg, ite_false]
      rw [ih (i + 1) (counter + 1) (by omega) f (by omega)]
      congr 1
      omega

/-- Splitting on a separator that does not occur returns the whole string
as the single field. -/
theorem splitOnChar_of_not_mem (sep : Char) (l : List Char) (h : sep ∉ l) :
    splitOnChar sep l = [l] := by
  induction l with
  | nil => simp [splitOnChar]
  | cons c rest ih =>
      simp only [List.mem_cons, not_or] at h
      have hcs : ¬ c = sep := fun hc => h.1 hc.symm
      simp [splitOnChar, ih h.2, hcs]

/-- If the repetition loop ended with `critical_check` failing at
repetition `j`, then `(i, j)` is the last repetition whose `shout`
executed, and `critical_check i j` is indeed false. -/
theorem repLoop_critical (b : AttackBehavior) (i : ℕ) :
    ∀ rem j0 j, (repLoop b i j0 rem).2.2 = .critical j →
      (repLoop b i j0 rem).1.getLast? = some (i, j) ∧
        b.critical_check i j = false := by
  intro rem
  induction rem with
  | zero => intro j0 j h; simp [repLoop] at h
  | succ rem ih =>
      intro j0 j h
      rcases hrun : b.running i j0 with _ | _
      · simp [repLoop, hrun] at h
      · rcases hc : b.critical_check i j0 with _ | _
        · simp only [repLoop, hrun, hc] at h ⊢
          simp only [Bool.not_true, Bool.false_eq_true, if_false,
            Bool.not_false, if_true] at h ⊢
          cases h
          simp [hc]
        · have h' : (repLoop b i (j0 + 1) rem).2.2 = .critical j := by
            simpa [repLoop, hrun, hc] using h
          obtain ⟨hlast, hcrit⟩ := ih (j0 + 1) j h'
          refine ⟨?_, hcrit⟩
          simp only [repLoop, hrun, hc, Bool.not_true, Bool.false_eq_true,
            if_false, Bool.not_false, if_true]
          rcases hrest : (repLoop b i (j0 + 1) rem).1 with _ | ⟨a, t⟩
          · rw [hrest] at hlast; simp at hlast
          · rw [hrest] at hlast
            simpa [List.getLast?_cons_cons] using hlast

/-- If the position loop ended with a `critical_check` abort at `(i, j)`,
then `shutdown` and the log close never ran, the last processed repetition
is `(i, j)`, and `critical_check i j` is false. -/
theorem posLoop_critical (b : AttackBehavior) :
    ∀ rem i0 i j, (posLoop b i0 rem).exit = .criticalAbortAt i j →
      (posLoop b i0 rem).shutdownCalled = false ∧
      (posLoop b i0 rem).logClosed = false ∧
      (posLoop b i0 rem).processed.getLast? = some (i, j) ∧
      b.critical_check i j = false := by
  intro rem
  induction rem with
  | zero => intro i0 i j h; simp [posLoop] at h
  | succ rem ih =>
      intro i0 i j h
      rcases hrep : (repLoop b i0 0 b.repetitions).2.2 with _ | j1 | j1
      · have h' : (posLoop b (i0 + 1) rem).exit = .criticalAbortAt i j := by
          simpa [posLoop, hrep] using h
        obtain ⟨h1, h2, h3, h4⟩ := ih (i0 + 1) i j h'
        refine ⟨?_, ?_, ?_, h4⟩
        · simpa [posLoop, hrep] using h1
        · simpa [posLoop, hrep] using h2
        · simp only [posLoop, hrep]
          have hne : (posLoop b (i0 + 1) rem).processed ≠ [] := by
            intro hnil; rw [hnil] at h3; simp at h3
          rw [List.getLast?_append_of_ne_nil _ hne]
          exact h3
      · simp [posLoop, hrep] at h
      · have hinj : i0 = i ∧ j1 = j := by
          simpa [posLoop, hrep] using h
        obtain ⟨rfl, rfl⟩ := hinj
        obtain ⟨hlast, hcrit⟩ := repLoop_critical b i0 b.repetitions 0 j1 hrep
        refine ⟨?_, ?_, ?_, hcrit⟩ <;> simp [posLoop, hrep, hlast]

/-! ### Claim theorems -/

/-- C1 (code bug evidence): the `step`, `home` and `move` orchestration
operations are admitted in the Joystick and Attack modes as well: each
returns `True` and dispatches a background task against the Motion
Controller, because the guard tests `attack_enabled() and
joystick_enabled()` — a conjunction that no single mode value can satisfy
(its siblings `enable_joystick`/`start_attack` use `or`). -/
theorem c1_step_home_move_admitted_in_nonmanual_modes :
    (∀ h : Helper, (attack_enabled h && joystick_enabled h) = false) ∧
    step ⟨.attack, 100, none, ⟨100⟩⟩ 5 1 2 3 =
      (true, some (.relativeMoveTask 1 2 3 5)) ∧
    home ⟨.attack, 100, none, ⟨100⟩⟩ true true false =
      (true, some (.homeTask true true false)) ∧
    move_helper ⟨.attack, 100, none, ⟨100⟩⟩ 5 1 2 3 =
      (true, some (.moveTask 1 2 3 5)) ∧
    step ⟨.joystick, 100, none, ⟨100⟩⟩ 5 1 2 3 =
      (true, some (.relativeMoveTask 1 2 3 5)) ∧
    home ⟨.joystick, 100, none, ⟨100⟩⟩ true true false =
      (true, some (.homeTask true true false)) ∧
    move_helper ⟨.joystick, 100, none, ⟨100⟩⟩ 5 1 2 3 =
      (true, some (.moveTask 1 2 3 5)) :=
  ⟨attack_and_joystick_never_both, rfl, rfl, rfl, rfl, rfl, rfl⟩

section ConcreteEvaluation

attribute [local semireducible] Rat.mul Rat.add Rat.sub Rat.inv

/-- C2 (code bug evidence): with safe height 100, current position
`(0, 0, 90)` and relative offset `z = 20`, the resulting height `110` fails
`is_safe_height`, the `'not safe. Aborting.'` log fires (first component
`true`), and yet `relative_move` still issues the `G0` relative move to the
hardware — the source logs but is missing the `return`. -/
theorem c2_relative_move_issues_move_despite_unsafe_height :
    is_safe_height ⟨100⟩ ((90 : ℚ) + 20) = false ∧
    relative_move ⟨100⟩ (0, 0, 90) none none 20 5 =
      (true, [.m114, .g91, .g0 300 none none (some 20), .clearBuf, .m400,
              .g90]) := by
  constructor
  · decide
  · decide

/-- C3 counterexample: with the default `max_tries = 10` and a stream that
never delivers `busy` or `ok`, the wait raises its timeout after 11 polls,
not after exactly 10 as claimed. -/
theorem c3_timeout_not_after_exactly_max_tries_polls :
    wait_cmd_completed (fun _ => SerialMsg.empty) 10 12 = .timeout 11 ∧
      WaitOutcome.timeout 11 ≠ WaitOutcome.timeout 10 :=
  ⟨rfl, by decide⟩

/-- C4: `compute_positions((0,0,0), (2,2,0), 1)` returns exactly the nine
serpentine-ordered grid points, with no duplicates. -/
theorem c4_compute_positions_serpentine_3x3 :
    compute_positions (0, 0, 0) (2, 2, 0) 1 =
      some [(0, 0, 0), (0, 1, 0), (0, 2, 0), (1, 2, 0), (1, 1, 0),
            (1, 0, 0), (2, 0, 0), (2, 1, 0), (2, 2, 0)] ∧
    ([(0, 0, 0), (0, 1, 0), (0, 2, 0), (1, 2, 0), (1, 1, 0),
      (1, 0, 0), (2, 0, 0), (2, 1, 0), (2, 2, 0)] :
        List (ℚ × ℚ × ℚ)).Nodup := by
  constructor
  · decide
  · decide

end ConcreteEvaluation

/-- C5: `is_safe_height(z)` is true iff `z ≤ safe_height`, and `move` with
an unsafe Z issues no hardware command at all. -/
theorem c5_safe_height_gate (m : MarlinState) (z : ℚ) :
    (is_safe_height m z = true ↔ z ≤ m.safe_height) ∧
    ∀ x y feed_rate, m.safe_height < z → move m x y (some z) feed_rate = [] := by
  constructor
  · by_cases hlt : m.safe_height < z
    · simp [is_safe_height, hlt, not_le.mpr hlt]
    · simp [is_safe_height, hlt, not_lt.mp hlt]
  · intro x y feed_rate hlt
    simp [move, is_safe_height, hlt]

/-- Witness for C5 at `safe_height = 100`, `z = 150`. -/
theorem c5_safe_height_gate_witness :
    move ⟨100⟩ none none (some 150) 5 = [] :=
  (c5_safe_height_gate ⟨100⟩ 150).2 none none 5 (by norm_num)

/-- C3 (amended): for every `max_tries ≥ 1`, a wait that never reads the
busy keepalive or `ok` raises its timeout after exactly `max_tries + 1`
polls (the counter must *exceed* `max_tries`, so the default 10 gives 11
polls ≈ 2.75s of silence); a busy read makes the loop continue with the
counter reset to 0 (then incremented to 1 for the sleep just taken),
regardless of its previous value; an `ok` read ends the wait
successfully. -/
theorem c3_wait_timeout_semantics (reads : ℕ → SerialMsg) (max_tries : ℕ)
    (hmt : 1 ≤ max_tries) :
    ((∀ i, reads i ≠ .busy ∧ reads i ≠ .ok) →
      ∀ fuel, max_tries + 1 ≤ fuel →
        wait_cmd_completed reads max_tries fuel = .timeout (max_tries + 1)) ∧
    (∀ i counter fuel, reads i = .busy →
      waitLoop reads max_tries i counter (fuel + 1) =
        waitLoop reads max_tries (i + 1) 1 fuel) ∧
    (∀ i counter fuel, reads i = .ok →
      waitLoop reads max_tries i counter (fuel + 1) = .completed i) := by
  refine ⟨?_, ?_, ?_⟩
  · intro hs fuel hf
    have h0 := waitLoop_silent reads max_tries hs max_tries 0 0 (by omega)
      fuel (by omega)
    simpa [wait_cmd_completed] using h0
  · intro i counter fuel hb
    have hne : ¬ 0 + 1 > max_tries := by omega
    simp [waitLoop, hb, hne]
  · intro i counter fuel ho
    simp [waitLoop, ho]

/-- Witness for C3 at the silent stream and the default `max_tries = 10`:
the timeout fires after 11 polls. -/
theorem c3_wait_timeout_semantics_witness :
    wait_cmd_completed (fun _ => SerialMsg.empty) 10 11 = .timeout 11 :=
  (c3_wait_timeout_semantics (fun _ => SerialMsg.empty) 10 (by norm_num)).1
    (fun _ => ⟨by decide, by decide⟩) 11 (by norm_num)

/-- C6: whenever an attack run ends because `critical_check` returned
false at position `i`, repetition `j`, the run halts immediately: the
shutdown hook is never called, the per-run log is never closed, and
`(i, j)` is the last processed repetition — nothing later runs. -/
theorem c6_critical_check_false_aborts_run (b : AttackBehavior) (n i j : ℕ)
    (h : (runWorker b n).exit = .criticalAbortAt i j) :
    (runWorker b n).shutdownCalled = false ∧
    (runWorker b n).logClosed = false ∧
    (runWorker b n).processed.getLast? = some (i, j) ∧
    b.critical_check i j = false :=
  posLoop_critical b n 0 i j h

/-- Witness for C6: a two-position, two-repetition run whose
`critical_check` fails immediately aborts at `(0, 0)` without shutdown. -/
theorem c6_critical_check_false_aborts_run_witness :
    (runWorker sampleCriticalAttack 2).shutdownCalled = false ∧
    (runWorker sampleCriticalAttack 2).logClosed = false ∧
    (runWorker sampleCriticalAttack 2).processed.getLast? = some (0, 0) ∧
    sampleCriticalAttack.critical_check 0 0 = false :=
  c6_critical_check_false_aborts_run sampleCriticalAttack 2 0 0 rfl

/-- C7 counterexample: the reply `"X:a Y:b Z:c"` has all three
colon-separated fields, but its first field is not a number, so
`get_position` raises `ValueError` to the caller instead of returning the
origin — the source catches only `IndexError`. -/
theorem c7_get_position_raises_value_error :
    get_position "X:a Y:b Z:c" = .error .valueError :=
  rfl

/-- C7 (amended): `get_position` returns the parsed coordinates on a
well-formed reply; when a coordinate field is missing (`IndexError`, e.g.
any reply without a colon) it returns the origin and logs; but when a
field is present and not parseable as a float, the `ValueError` propagates
to the caller. -/
theorem c7_get_position_error_handling (reply : String) :
    (':' ∉ reply.data → get_position reply = .ok (0, 0, 0)) ∧
    (∀ p, parsePosition reply = .ok p → get_position reply = .ok p) ∧
    (parsePosition reply = .error .indexError →
      get_position reply = .ok (0, 0, 0)) ∧
    (parsePosition reply = .error .valueError →
      get_position reply = .error .valueError) := by
  refine ⟨?_, ?_, ?_, ?_⟩
  · intro h
    have hs := splitOnChar_of_not_mem ':' reply.data h
    simp [get_position, parsePosition, hs, pyIndex, Bind.bind, Except.bind]
  · intro p hp
    simp [get_position, hp]
  · intro hp
    simp [get_position, hp]
  · intro hp
    simp [get_position, hp]

/-- Witness for C7 at the colon-free reply `"ok"`. -/
theorem c7_get_position_error_handling_witness :
    get_position "ok" = .ok (0, 0, 0) :=
  (c7_get_position_error_handling "ok").1 (by decide)

/-- C8 counterexample: while a background task is alive
(`is_running() = true`), a `safeZ` request is refused by the handler's busy
check — it is not admitted, and the state is unchanged. -/
theorem c8_safe_z_refused_while_task_alive :
    handle_safe_z true ⟨.manual, 100, none, ⟨100⟩⟩ 5 =
      (.busyError, ⟨.manual, 100, none, ⟨100⟩⟩) ∧
    (handle_safe_z true ⟨.manual, 100, none, ⟨100⟩⟩ 5).1 ≠ .handled true :=
  ⟨rfl, by decide⟩

/-- C8 (amended): a `safeZ` request is admitted in every mode whenever no
background task is alive, and on admission updates the Motion Controller's
safe height and the snapshot's `safe_z` and reports success; while a task
is alive the generic busy check refuses it with an error and leaves the
state unchanged (only `disableJoystick` and `stopAttack` bypass that
check). -/
theorem c8_safe_z_admission (h : Helper) (z : ℚ) :
    handle_safe_z false h z =
      (.handled true,
        { h with marlin := set_safe_height h.marlin z, safe_z := z }) ∧
    handle_safe_z true h z = (.busyError, h) :=
  ⟨rfl, rfl⟩

/-- C9: when no loaded attack class matches the requested name,
`load_attack` returns `False` (calling the `None` lookup result raises a
`TypeError` that is caught), sets only the log name, and leaves the
previously loaded attack object unchanged. -/
theorem c9_load_attack_unknown_name (reg : List AttackClass)
    (w : WorkerState) (name : String)
    (h : get_attack_by_name reg name = none) :
    load_attack reg w name = (false, { w with log_name := name }) := by
  simp [load_attack, h]

/-- Witness for C9: an empty registry matches no name; the previously
loaded attack object survives the failed load. -/
theorem c9_load_attack_unknown_name_witness :
    load_attack [] ⟨some sampleCriticalAttack, "old"⟩ "Unknown" =
      (false, ⟨some sampleCriticalAttack, "Unknown"⟩) :=
  c9_load_attack_unknown_name [] ⟨some sampleCriticalAttack, "old"⟩
    "Unknown" rfl

/-- C10: `disable_joystick` succeeds from every starting state — any mode,
with or without a joystick object — returning `True` and forcing the mode
to Manual; it joins the background task exactly when a joystick object
exists. -/
theorem c10_disable_joystick_unconditional (h : Helper) :
    (disable_joystick h).1 = true ∧
    (disable_joystick h).2.1.mode = .manual ∧
    (disable_joystick h).2.2 = h.joystick.isSome := by
  rcases hj : h.joystick with _ | j <;> simp [disable_joystick, hj]

end EMFI
